import Mathlib

/-!
# secureAuthSystem: registration, verification and login

A shallow embedding of `src/api/controllers/authController.js` and
`src/api/utils/helpers.js`.

* The table `secure_auth_api_users` is a list of rows plus the next generated id.
* The module-level object `verificationCodes` is a JavaScript object: own
  properties plus a prototype slot.
* The collaborators (`pool`, `bcrypt`, `jwt`, `Math.random`) are read from an
  environment `Env` that fixes, for one call, what each of them answers,
  a rejection included.
* The number of clients checked out of the pool is part of the state.
-/

namespace SecureAuth

/-! ## Data model -/

/-- A row of the table secure_auth_api_users. -/
structure Account where
  id : Nat
  username : String
  password_hash : String
deriving DecidableEq, Repr

/-- Modelled from the spec: the relation secure_auth_api_users, whose schema is
not among the sources. The spec describes it as a single table keyed by a
generated id with a unique constraint on username; `nextId` is the value the
id generator hands to the next inserted row. -/
structure Table where
  rows : List Account
  nextId : Nat
deriving DecidableEq, Repr

/-- The value stored under a username in verificationCodes:
the object with the fields hashedPassword and code. -/
structure Pending where
  hashedPassword : String
  code : String
deriving DecidableEq, Repr

/-- The JavaScript object verificationCodes. `own` holds its own properties,
latest write first. `proto` is the prototype slot: `none` stands for
Object.prototype, `some e` for a staged entry that an assignment to the key
__proto__ installed as prototype. -/
structure JsObject where
  own : List (String × Pending)
  proto : Option Pending
deriving DecidableEq, Repr

/-- The name of the accessor property of Object.prototype that reads and
writes the prototype of an object. -/
def protoKey : String := "__proto__"

/-- The read `verificationCodes[username]`, as far as the test
`stored && stored.code === code` can see it. The key __proto__ reads the
prototype slot; every other key reads the own property. A value inherited from
Object.prototype (a function) or from a staged prototype (a string) has no
`code` property, so it can never pass the test against a string and is
represented by `none`, like an absent key. -/
def JsObject.get (o : JsObject) (key : String) : Option Pending :=
  if key = protoKey then o.proto else o.own.lookup key

/-- The assignment `verificationCodes[username] = entry`. The key __proto__
runs the setter of Object.prototype, which replaces the prototype of the
object; every other key creates or overwrites an own property. -/
def JsObject.set (o : JsObject) (key : String) (entry : Pending) : JsObject :=
  if key = protoKey then { o with proto := some entry }
  else { o with own := (key, entry) :: o.own.filter (fun kv => kv.1 ≠ key) }

/-- The statement `delete verificationCodes[username]`: removes the own
property of that name when there is one and leaves the prototype alone. -/
def JsObject.delete (o : JsObject) (key : String) : JsObject :=
  { o with own := o.own.filter (fun kv => kv.1 ≠ key) }

/-- The literal `{}` that verificationCodes is initialised with. -/
def JsObject.empty : JsObject := { own := [], proto := none }

/-- The state the six handlers act on: the table, the module-level object
verificationCodes, and the number of pool clients checked out and not yet
released. -/
structure State where
  db : Table
  verificationCodes : JsObject
  outstanding : Nat
deriving DecidableEq, Repr

/-- The JSON body a handler sends. -/
inductive Body where
  | error (msg : String)
  | message (msg : String)
  | messageToken (msg : String) (token : String)
  | user (id : Nat) (username : String)
deriving DecidableEq, Repr

/-- The response sent with `res.status(..).json(..)`. -/
structure Response where
  status : Nat
  body : Body
deriving DecidableEq, Repr

/-- What the collaborators answer during one call. `none` and `false` on the
pool fields stand for a rejected promise or a thrown exception. -/
structure Env where
  /-- Whether `pool.connect()` resolves. -/
  connect : Bool
  /-- Whether the first query of the call resolves (constraint violations of an
  INSERT are decided by the table, not here). -/
  query1 : Bool
  /-- Whether the second query of the call resolves. -/
  query2 : Bool
  /-- The result of `bcrypt.hash(password, 10)`. -/
  hash : String → Option String
  /-- The result of `bcrypt.compare(password, hash)`. -/
  compare : String → String → Option Bool
  /-- The result of `jwt.sign` in generateToken for a user id. -/
  sign : Nat → Option String
  /-- The string `Math.random().toString(36)` of this call. -/
  random36 : String

/-- What a handler leaves behind: the new state, the response, and the
simulated email (recipient, code) written with console.log by register. -/
structure Outcome where
  state : State
  response : Response
  mail : Option (String × String)
deriving DecidableEq, Repr

/-! ## helpers.js -/

/-- The function generateToken of helpers.js: `jwt.sign` of the user id with the
process-wide secret and a validity of one hour; the signature is computed by
the environment and fails when the secret is absent. -/
def generateToken (env : Env) (userId : Nat) : Option String := env.sign userId

/-- The method `String.prototype.substring(start, end)`: both indices are
clamped to the length and swapped when start exceeds end. -/
def substring (s : List Char) (start stop : Nat) : List Char :=
  let a := min start s.length
  let b := min stop s.length
  (s.drop (min a b)).take (max a b - min a b)

/-- The method `String.prototype.toUpperCase()` on the ASCII characters that a
radix-36 rendering consists of. -/
def toUpperCase (s : List Char) : List Char := s.map Char.toUpper

/-- The function generateVerificationCode of helpers.js, applied to the string
`Math.random().toString(36)`: `.substring(2, 10).toUpperCase()`. -/
def generateVerificationCode (rendered : String) : String :=
  String.mk (toUpperCase (substring rendered.data 2 10))

/-- The digits a radix-36 rendering is written with. -/
def radix36Digits : List Char := "0123456789abcdefghijklmnopqrstuvwxyz".data

/-- Whether `s` has the shape of `x.toString(36)` for a number x strictly
between 0 and 1: the characters 0 and . followed by at least one radix-36
digit. (The number 0 itself renders as the single character 0.) -/
def isFractionRendering (s : String) : Bool :=
  match s.data with
  | '0' :: '.' :: d :: ds => (d :: ds).all (fun c => radix36Digits.contains c)
  | _ => false

/-- Whether `s` is a string `Math.random().toString(36)` can evaluate to.
Math.random() returns a number x with 0 ≤ x < 1: the number 0 renders as the
single character 0, every other x as a fraction rendering. -/
def isRandomRendering (s : String) : Bool :=
  s = "0" || isFractionRendering s

/-! ## authController.js -/

/-- The call `pool.connect()` resolving: one more client is checked out. -/
def acquire (s : State) : State := { s with outstanding := s.outstanding + 1 }

/-- The call `client.release()`: the client goes back to the pool. -/
def release (s : State) : State := { s with outstanding := s.outstanding - 1 }

/-- The rows a SELECT with `WHERE username = $1` returns. -/
def Table.byUsername (t : Table) (username : String) : List Account :=
  t.rows.filter (fun r => r.username = username)

/-- The rows a SELECT with `WHERE id = $1` returns. -/
def Table.byId (t : Table) (id : Nat) : List Account :=
  t.rows.filter (fun r => r.id = id)

/-- Modelled from the spec: the INSERT of a (username, password_hash) row into
secure_auth_api_users, whose schema is not among the sources. The spec makes
insert the authoritative uniqueness boundary: it fails (`none`) when a row with
that username exists, and otherwise appends a row with a freshly generated
id. -/
def Table.insert (t : Table) (username passwordHash : String) : Option Table :=
  if t.byUsername username = [] then
    some { rows := t.rows ++ [{ id := t.nextId, username := username, password_hash := passwordHash }],
           nextId := t.nextId + 1 }
  else none

/-- The statement `UPDATE .. SET password_hash = $1 WHERE id = $2`. -/
def Table.updatePasswordHash (t : Table) (id : Nat) (newHash : String) : Table :=
  { t with rows := t.rows.map (fun r => if r.id = id then { r with password_hash := newHash } else r) }

/-- The statement `DELETE FROM .. WHERE id = $1`. -/
def Table.deleteById (t : Table) (id : Nat) : Table :=
  { t with rows := t.rows.filter (fun r => r.id ≠ id) }

/-- The response `res.status(code).json({ error: msg })`. -/
def errorResponse (status : Nat) (msg : String) : Response := ⟨status, Body.error msg⟩

/-- The response `res.status(200).json({ message: msg })`. -/
def messageResponse (msg : String) : Response := ⟨200, Body.message msg⟩

/-- The handler register (authController.js lines 8 to 40). -/
def register (env : Env) (s : State) (username password : String) : Outcome :=
  if username = "" ∨ password = "" then
    ⟨s, errorResponse 400 "Username and password are required.", none⟩
  else if env.connect = false then
    ⟨s, errorResponse 500 "Internal server error.", none⟩
  else
    let s1 := acquire s
    match env.hash password with
    | none => ⟨s1, errorResponse 500 "Internal server error.", none⟩
    | some hashedPassword =>
      let s2 := release s1
      if env.query1 = false then
        ⟨s2, errorResponse 500 "Internal server error.", none⟩
      else if (s2.db.byUsername username).length > 0 then
        ⟨s2, errorResponse 409 "Username already exists.", none⟩
      else
        let verificationCode := generateVerificationCode env.random36
        ⟨{ s2 with verificationCodes :=
              s2.verificationCodes.set username ⟨hashedPassword, verificationCode⟩ },
         messageResponse "Registration initiated. Please check your email for the verification code.",
         some (username, verificationCode)⟩

/-- The handler verify (authController.js lines 42 to 70). -/
def verify (env : Env) (s : State) (username code : String) : Outcome :=
  if username = "" ∨ code = "" then
    ⟨s, errorResponse 400 "Username and verification code are required.", none⟩
  else
    match s.verificationCodes.get username with
    | some stored =>
      if stored.code = code then
        if env.connect = false then
          ⟨s, errorResponse 500 "Internal server error during verification.", none⟩
        else
          let s1 := acquire s
          if env.query1 = false then
            ⟨s1, errorResponse 500 "Internal server error during verification.", none⟩
          else
            match s1.db.insert username stored.hashedPassword with
            | none => ⟨s1, errorResponse 500 "Internal server error during verification.", none⟩
            | some db =>
              let s2 := release { s1 with db := db }
              ⟨{ s2 with verificationCodes := s2.verificationCodes.delete username },
               messageResponse "Account verified successfully. You can now log in.", none⟩
      else
        ⟨s, errorResponse 400 "Invalid username or verification code.", none⟩
    | none => ⟨s, errorResponse 400 "Invalid username or verification code.", none⟩

/-- The handler login (authController.js lines 72 to 101). -/
def login (env : Env) (s : State) (username password : String) : Outcome :=
  if username = "" ∨ password = "" then
    ⟨s, errorResponse 400 "Username and password are required.", none⟩
  else if env.connect = false then
    ⟨s, errorResponse 500 "Internal server error.", none⟩
  else
    let s1 := acquire s
    if env.query1 = false then
      ⟨s1, errorResponse 500 "Internal server error.", none⟩
    else
      let s2 := release s1
      match s2.db.byUsername username with
      | [] => ⟨s2, errorResponse 401 "Invalid credentials.", none⟩
      | user :: _ =>
        match env.compare password user.password_hash with
        | none => ⟨s2, errorResponse 500 "Internal server error.", none⟩
        | some true =>
          match generateToken env user.id with
          | none => ⟨s2, errorResponse 500 "Internal server error.", none⟩
          | some token => ⟨s2, ⟨200, Body.messageToken "Login successful." token⟩, none⟩
        | some false => ⟨s2, errorResponse 401 "Invalid credentials.", none⟩

/-- The handler getMe (authController.js lines 103 to 118); `userId` is
`req.userId`. -/
def getMe (env : Env) (s : State) (userId : Nat) : Outcome :=
  if env.connect = false then
    ⟨s, errorResponse 500 "Internal server error.", none⟩
  else
    let s1 := acquire s
    if env.query1 = false then
      ⟨s1, errorResponse 500 "Internal server error.", none⟩
    else
      let s2 := release s1
      match s2.db.byId userId with
      | [user] => ⟨s2, ⟨200, Body.user user.id user.username⟩, none⟩
      | _ => ⟨s2, errorResponse 404 "User not found.", none⟩

/-- The handler updatePassword (authController.js lines 120 to 153). -/
def updatePassword (env : Env) (s : State) (userId : Nat) (oldPassword newPassword : String) :
    Outcome :=
  if oldPassword = "" ∨ newPassword = "" then
    ⟨s, errorResponse 400 "Old password and new password are required.", none⟩
  else if env.connect = false then
    ⟨s, errorResponse 500 "Internal server error.", none⟩
  else
    let s1 := acquire s
    if env.query1 = false then
      ⟨s1, errorResponse 500 "Internal server error.", none⟩
    else
      match s1.db.byId userId with
      | [user] =>
        match env.compare oldPassword user.password_hash with
        | none => ⟨s1, errorResponse 500 "Internal server error.", none⟩
        | some true =>
          match env.hash newPassword with
          | none => ⟨s1, errorResponse 500 "Internal server error.", none⟩
          | some newHashedPassword =>
            if env.query2 = false then
              ⟨s1, errorResponse 500 "Internal server error.", none⟩
            else
              ⟨release { s1 with db := s1.db.updatePasswordHash userId newHashedPassword },
               messageResponse "Password updated successfully.", none⟩
        | some false => ⟨release s1, errorResponse 401 "Incorrect old password.", none⟩
      | _ => ⟨release s1, errorResponse 404 "User not found.", none⟩

/-- The handler deleteMe (authController.js lines 155 to 186). -/
def deleteMe (env : Env) (s : State) (userId : Nat) (password : String) : Outcome :=
  if password = "" then
    ⟨s, errorResponse 400 "Password is required to delete your account.", none⟩
  else if env.connect = false then
    ⟨s, errorResponse 500 "Internal server error.", none⟩
  else
    let s1 := acquire s
    if env.query1 = false then
      ⟨s1, errorResponse 500 "Internal server error.", none⟩
    else
      match s1.db.byId userId with
      | [user] =>
        match env.compare password user.password_hash with
        | none => ⟨s1, errorResponse 500 "Internal server error.", none⟩
        | some true =>
          if env.query2 = false then
            ⟨s1, errorResponse 500 "Internal server error.", none⟩
          else
            ⟨release { s1 with db := s1.db.deleteById userId },
             messageResponse "Account deleted successfully.", none⟩
        | some false => ⟨release s1, errorResponse 401 "Incorrect password.", none⟩
      | _ => ⟨release s1, errorResponse 404 "User not found.", none⟩

/-! ## Sequences of calls -/

/-- A request to one of the six handlers. -/
inductive Call where
  | register (username password : String)
  | verify (username code : String)
  | login (username password : String)
  | getMe (userId : Nat)
  | updatePassword (userId : Nat) (oldPassword newPassword : String)
  | deleteMe (userId : Nat) (password : String)
deriving DecidableEq, Repr

/-- One call served to completion in the environment `env`. -/
def step (env : Env) (s : State) : Call → Outcome
  | Call.register u p => register env s u p
  | Call.verify u c => verify env s u c
  | Call.login u p => login env s u p
  | Call.getMe i => getMe env s i
  | Call.updatePassword i o n => updatePassword env s i o n
  | Call.deleteMe i p => deleteMe env s i p

/-- The state after serving the calls of `trace` one at a time, each in its
own environment. -/
def run (s : State) : List (Env × Call) → State
  | [] => s
  | (env, c) :: rest => run (step env s c).state rest

/-- The token of a login response, when its body carries one. -/
def Body.token? : Body → Option String
  | Body.messageToken _ token => some token
  | _ => none

/-! ## Concrete environments and states used to instantiate the theorems -/

/-- The part of a password that bcrypt reads: its first 72 characters (the
algorithm ignores whatever follows the first 72 bytes). -/
def bcryptInput (password : String) : String := String.mk (password.data.take 72)

/-- An environment in which every collaborator answers: the pool connects, the
queries resolve, hashing tags the part of the password that bcrypt reads,
comparing checks that tag, signing returns a fixed token, and the random draw
renders as `rendered`. -/
def Env.working (rendered : String) : Env where
  connect := true
  query1 := true
  query2 := true
  hash := fun p => some ("h:" ++ bcryptInput p)
  compare := fun p h => some (decide (h = "h:" ++ bcryptInput p))
  sign := fun _ => some "token"
  random36 := rendered

/-- The working environment with a random draw that renders as
0.4fzyo82mvyr. -/
def Env.sample : Env := Env.working "0.4fzyo82mvyr"

/-- The working environment, except that the first query rejects. -/
def Env.queryFails : Env := { Env.sample with query1 := false }

/-- The working environment, except that bcrypt.hash rejects. -/
def Env.hashFails : Env := { Env.sample with hash := fun _ => none }

/-- The working environment, except that bcrypt.compare rejects, as it does for
a password that is not a string. -/
def Env.compareFails : Env := { Env.sample with compare := fun _ _ => none }

/-- The state of a fresh process on an empty table. -/
def State.initial : State :=
  { db := { rows := [], nextId := 1 }, verificationCodes := JsObject.empty, outstanding := 0 }

/-- A state in which bob has registered with password pw and not verified. -/
def State.bobPending : State :=
  { db := { rows := [], nextId := 1 },
    verificationCodes := { own := [("bob", ⟨"h:pw", "4FZYO82M"⟩)], proto := none },
    outstanding := 0 }

/-- A state in which alice holds account 1 with password pw. -/
def State.aliceVerified : State :=
  { db := { rows := [⟨1, "alice", "h:pw"⟩], nextId := 2 },
    verificationCodes := JsObject.empty, outstanding := 0 }

/-- A password of 73 characters: 72 times the letter a, then x. -/
def longPasswordX : String := String.mk (List.replicate 72 'a' ++ ['x'])

/-- A password of 73 characters: 72 times the letter a, then y. -/
def longPasswordY : String := String.mk (List.replicate 72 'a' ++ ['y'])

/-- A state in which alice holds account 1 with the password longPasswordX. -/
def State.aliceLongPassword : State :=
  { db := { rows := [⟨1, "alice", "h:" ++ String.mk (List.replicate 72 'a')⟩], nextId := 2 },
    verificationCodes := JsObject.empty, outstanding := 0 }

/-! ## Effect of each handler on the table -/

theorem release_acquire (s : State) : release (acquire s) = s := by
  cases s; simp [release, acquire]

theorem register_db (env : Env) (s : State) (u p : String) :
    (register env s u p).state.db = s.db := by
  unfold register
  repeat' (first | split | (dsimp only))
  all_goals rfl

theorem login_db (env : Env) (s : State) (u p : String) :
    (login env s u p).state.db = s.db := by
  unfold login
  repeat' (first | split | (dsimp only))
  all_goals rfl

theorem getMe_db (env : Env) (s : State) (i : Nat) :
    (getMe env s i).state.db = s.db := by
  unfold getMe
  repeat' (first | split | (dsimp only))
  all_goals rfl

theorem updatePassword_db (env : Env) (s : State) (i : Nat) (o n : String) :
    (updatePassword env s i o n).state.db = s.db ∨
      ∃ h, (updatePassword env s i o n).state.db = s.db.updatePasswordHash i h := by
  unfold updatePassword
  repeat' (first | split | (dsimp only))
  all_goals first
    | exact Or.inl rfl
    | exact Or.inr ⟨_, rfl⟩

theorem deleteMe_db (env : Env) (s : State) (i : Nat) (p : String) :
    (deleteMe env s i p).state.db = s.db ∨
      (deleteMe env s i p).state.db = s.db.deleteById i := by
  unfold deleteMe
  repeat' (first | split | (dsimp only))
  all_goals first
    | exact Or.inl rfl
    | exact Or.inr rfl

theorem verify_db (env : Env) (s : State) (u c : String) :
    (verify env s u c).state.db = s.db ∨
      ∃ stored, s.verificationCodes.get u = some stored ∧ stored.code = c ∧
        s.db.byUsername u = [] ∧
        (verify env s u c).state.db =
          ⟨s.db.rows ++ [⟨s.db.nextId, u, stored.hashedPassword⟩], s.db.nextId + 1⟩ := by
  unfold verify
  repeat' (first | split | (dsimp only))
  all_goals first
    | exact Or.inl rfl
    | skip
  rename_i stored hs hcode _ _ _ db hins
  refine Or.inr ⟨stored, hs, hcode, ?_⟩
  simp only [Table.insert, acquire] at hins
  split at hins
  · rename_i hb
    refine ⟨hb, ?_⟩
    simp only [Option.some.injEq] at hins
    subst hins
    rfl
  · exact absurd hins (by simp)

/-! ## C1: accounts are created by a matching verify only -/

/-- C1: whenever a call of register, verify, login, getMe, updatePassword or
deleteMe leaves the table with more rows than before, the call is
verify(username, code), verificationCodes held an entry for that username
before the call, the code of that entry equals the submitted code, and the
table is the old one followed by one row with that username and the hash of
the entry. In every other case the number of rows does not grow. -/
theorem account_added_only_by_matching_verify (env : Env) (s : State) (call : Call)
    (h : s.db.rows.length < (step env s call).state.db.rows.length) :
    ∃ username code stored, call = Call.verify username code ∧
      s.verificationCodes.get username = some stored ∧ stored.code = code ∧
      (step env s call).state.db.rows =
        s.db.rows ++ [⟨s.db.nextId, username, stored.hashedPassword⟩] := by
  cases call with
  | register u p => simp [step, register_db] at h
  | login u p => simp [step, login_db] at h
  | getMe i => simp [step, getMe_db] at h
  | updatePassword i o n =>
    exfalso
    rcases updatePassword_db env s i o n with e | ⟨hh, e⟩
    · simp [step, e] at h
    · simp [step, e, Table.updatePasswordHash] at h
  | deleteMe i p =>
    exfalso
    rcases deleteMe_db env s i p with e | e
    · simp [step, e] at h
    · have hle := List.length_filter_le (fun r : Account => decide (r.id ≠ i)) s.db.rows
      simp only [step, e, Table.deleteById] at h
      omega
  | verify u c =>
    rcases verify_db env s u c with e | ⟨stored, hs, hc, _, e⟩
    · simp [step, e] at h
    · exact ⟨u, c, stored, rfl, hs, hc, by simp [step, e]⟩

/-- C1 at a concrete input: bob verifies with the code staged for him. -/
theorem account_added_only_by_matching_verify_witness :
    State.bobPending.db.rows.length <
        (step Env.sample State.bobPending (Call.verify "bob" "4FZYO82M")).state.db.rows.length ∧
      ∃ username code stored, Call.verify "bob" "4FZYO82M" = Call.verify username code ∧
        State.bobPending.verificationCodes.get username = some stored ∧ stored.code = code ∧
        (step Env.sample State.bobPending (Call.verify "bob" "4FZYO82M")).state.db.rows =
          State.bobPending.db.rows ++
            [⟨State.bobPending.db.nextId, username, stored.hashedPassword⟩] :=
  ⟨by decide,
   account_added_only_by_matching_verify Env.sample State.bobPending
     (Call.verify "bob" "4FZYO82M") (by decide)⟩

/-! ## C4: unknown username and wrong code are not told apart -/

theorem verify_invalid_of_absent (env : Env) (s : State) (u c : String)
    (hu : u ≠ "") (hc : c ≠ "") (h : s.verificationCodes.get u = none) :
    verify env s u c = ⟨s, errorResponse 400 "Invalid username or verification code.", none⟩ := by
  simp [verify, hu, hc, h]

theorem verify_invalid_of_wrong_code (env : Env) (s : State) (u c : String) (stored : Pending)
    (hu : u ≠ "") (hc : c ≠ "") (h : s.verificationCodes.get u = some stored)
    (hne : stored.code ≠ c) :
    verify env s u c = ⟨s, errorResponse 400 "Invalid username or verification code.", none⟩ := by
  simp [verify, hu, hc, h, hne]

/-- C4: for non-blank usernames and codes, a verify for a username without an
entry in verificationCodes (state s1) and a verify for a username whose entry
holds another code (state s2) send the same response, status 400 with the
error Invalid username or verification code, and each leaves its whole state
(table, verificationCodes, pool) as it was. -/
theorem verify_failures_indistinguishable (env1 env2 : Env) (s1 s2 : State)
    (u1 c1 u2 c2 : String) (stored : Pending)
    (hu1 : u1 ≠ "") (hc1 : c1 ≠ "") (hu2 : u2 ≠ "") (hc2 : c2 ≠ "")
    (habsent : s1.verificationCodes.get u1 = none)
    (hstored : s2.verificationCodes.get u2 = some stored) (hne : stored.code ≠ c2) :
    (verify env1 s1 u1 c1).response = (verify env2 s2 u2 c2).response ∧
      (verify env1 s1 u1 c1).response =
        errorResponse 400 "Invalid username or verification code." ∧
      (verify env1 s1 u1 c1).state = s1 ∧ (verify env2 s2 u2 c2).state = s2 := by
  rw [verify_invalid_of_absent env1 s1 u1 c1 hu1 hc1 habsent,
    verify_invalid_of_wrong_code env2 s2 u2 c2 stored hu2 hc2 hstored hne]
  exact ⟨rfl, rfl, rfl, rfl⟩

/-- C4 at a concrete input: carol has no entry, bob submits a wrong code. -/
theorem verify_failures_indistinguishable_witness :
    (verify Env.sample State.bobPending "carol" "4FZYO82M").response =
        (verify Env.sample State.bobPending "bob" "WRONG").response ∧
      (verify Env.sample State.bobPending "carol" "4FZYO82M").response =
        errorResponse 400 "Invalid username or verification code." ∧
      (verify Env.sample State.bobPending "carol" "4FZYO82M").state = State.bobPending ∧
      (verify Env.sample State.bobPending "bob" "WRONG").state = State.bobPending :=
  verify_failures_indistinguishable Env.sample Env.sample State.bobPending State.bobPending
    "carol" "4FZYO82M" "bob" "WRONG" ⟨"h:pw", "4FZYO82M"⟩
    (by decide) (by decide) (by decide) (by decide) (by decide) (by decide) (by decide)

/-! ## C5: unknown username against existing username in login -/

theorem login_no_account (env : Env) (s : State) (u p : String)
    (hu : u ≠ "") (hp : p ≠ "") (hc : env.connect = true) (hq : env.query1 = true)
    (h : s.db.byUsername u = []) :
    login env s u p = ⟨s, errorResponse 401 "Invalid credentials.", none⟩ := by
  simp [login, hu, hp, hc, hq, release_acquire, h]

theorem login_of_account (env : Env) (s : State) (u p : String) (user : Account)
    (rest : List Account)
    (hu : u ≠ "") (hp : p ≠ "") (hc : env.connect = true) (hq : env.query1 = true)
    (h : s.db.byUsername u = user :: rest) :
    login env s u p =
      match env.compare p user.password_hash with
      | none => ⟨s, errorResponse 500 "Internal server error.", none⟩
      | some true =>
        match generateToken env user.id with
        | none => ⟨s, errorResponse 500 "Internal server error.", none⟩
        | some token => ⟨s, ⟨200, Body.messageToken "Login successful." token⟩, none⟩
      | some false => ⟨s, errorResponse 401 "Invalid credentials.", none⟩ := by
  simp [login, hu, hp, hc, hq, release_acquire, h]

/-- Where the two failures of login are not told apart: when the pool answers
and bcrypt.compare answers false, a login for a non-blank username that has no
row (state s1) and a login for a username whose first row holds a hash that
does not match the submitted password (state s2) send the same response,
status 401 with the error Invalid credentials and no token, and each leaves its
whole state (table, verificationCodes, pool) as it was. -/
theorem login_failures_indistinguishable (env1 env2 : Env) (s1 s2 : State)
    (u1 p1 u2 p2 : String) (user : Account) (rest : List Account)
    (hu1 : u1 ≠ "") (hp1 : p1 ≠ "") (hu2 : u2 ≠ "") (hp2 : p2 ≠ "")
    (hconn1 : env1.connect = true) (hq1 : env1.query1 = true)
    (hconn2 : env2.connect = true) (hq2 : env2.query1 = true)
    (habsent : s1.db.byUsername u1 = [])
    (hrow : s2.db.byUsername u2 = user :: rest)
    (hwrong : env2.compare p2 user.password_hash = some false) :
    (login env1 s1 u1 p1).response = (login env2 s2 u2 p2).response ∧
      (login env1 s1 u1 p1).response = errorResponse 401 "Invalid credentials." ∧
      (login env1 s1 u1 p1).response.body.token? = none ∧
      (login env1 s1 u1 p1).state = s1 ∧ (login env2 s2 u2 p2).state = s2 := by
  rw [login_no_account env1 s1 u1 p1 hu1 hp1 hconn1 hq1 habsent,
    login_of_account env2 s2 u2 p2 user rest hu2 hp2 hconn2 hq2 hrow, hwrong]
  exact ⟨rfl, rfl, rfl, rfl, rfl⟩

/-- The two failures at a concrete input: mallory has no account, alice
submits a wrong password. -/
theorem login_failures_indistinguishable_witness :
    (login Env.sample State.aliceVerified "mallory" "pw").response =
        (login Env.sample State.aliceVerified "alice" "guess").response ∧
      (login Env.sample State.aliceVerified "mallory" "pw").response =
        errorResponse 401 "Invalid credentials." ∧
      (login Env.sample State.aliceVerified "mallory" "pw").response.body.token? = none ∧
      (login Env.sample State.aliceVerified "mallory" "pw").state = State.aliceVerified ∧
      (login Env.sample State.aliceVerified "alice" "guess").state = State.aliceVerified :=
  login_failures_indistinguishable Env.sample Env.sample State.aliceVerified State.aliceVerified
    "mallory" "pw" "alice" "guess" ⟨1, "alice", "h:pw"⟩ []
    (by decide) (by decide) (by decide) (by decide) rfl rfl rfl rfl
    (by decide) (by decide) (by decide)

/-- C5 at the failing input: a login whose password bcrypt.compare rejects. A
JSON number such as 123 is truthy, so it passes the blank check, and is
rejected by bcrypt.compare as data that is not a string. For a username
without an account login answers 401 Invalid credentials before bcrypt is
reached; for a username with an account bcrypt.compare is awaited, rejects, and
the catch block answers 500 Internal server error. The two responses differ,
so the response tells an existing username from an absent one. -/
theorem login_tells_accounts_apart_when_compare_rejects :
    (login Env.compareFails State.aliceVerified "mallory" "123").response =
        errorResponse 401 "Invalid credentials." ∧
      (login Env.compareFails State.aliceVerified "alice" "123").response =
        errorResponse 500 "Internal server error." ∧
      (login Env.compareFails State.aliceVerified "mallory" "123").response ≠
        (login Env.compareFails State.aliceVerified "alice" "123").response := by
  decide

/-! ## C6: one account per username -/

theorem usernames_updatePasswordHash (t : Table) (i : Nat) (h : String) :
    (t.updatePasswordHash i h).rows.map Account.username = t.rows.map Account.username := by
  simp only [Table.updatePasswordHash, List.map_map]
  apply List.map_congr_left
  intro r _
  by_cases hr : r.id = i <;> simp [hr]

theorem not_mem_usernames_of_byUsername_nil (t : Table) (u : String)
    (h : t.byUsername u = []) : u ∉ t.rows.map Account.username := by
  intro hmem
  rcases List.mem_map.1 hmem with ⟨r, hr, hru⟩
  have : r ∈ t.byUsername u := by
    simp [Table.byUsername, List.mem_filter, hr, hru]
  rw [h] at this
  exact absurd this (List.not_mem_nil r)

theorem step_usernames_nodup (env : Env) (s : State) (call : Call)
    (h : (s.db.rows.map Account.username).Nodup) :
    ((step env s call).state.db.rows.map Account.username).Nodup := by
  cases call with
  | register u p => simpa [step, register_db] using h
  | login u p => simpa [step, login_db] using h
  | getMe i => simpa [step, getMe_db] using h
  | updatePassword i o n =>
    rcases updatePassword_db env s i o n with e | ⟨hh, e⟩
    · simpa [step, e] using h
    · simp only [step, e, usernames_updatePasswordHash]
      exact h
  | deleteMe i p =>
    rcases deleteMe_db env s i p with e | e
    · simpa [step, e] using h
    · simp only [step, e, Table.deleteById]
      exact h.sublist ((List.filter_sublist _).map _)
  | verify u c =>
    rcases verify_db env s u c with e | ⟨stored, _, _, hb, e⟩
    · simpa [step, e] using h
    · simp only [step, e, List.map_append, List.map_cons, List.map_nil]
      refine List.Nodup.append h (List.nodup_singleton _) ?_
      intro x hx hx2
      rw [List.mem_singleton] at hx2
      subst hx2
      exact not_mem_usernames_of_byUsername_nil s.db _ hb hx

/-- C6: from a state whose rows have pairwise distinct usernames, every state
reached by a finite sequence of register, verify, login, getMe, updatePassword
and deleteMe calls, in whatever environments, again has pairwise distinct
usernames; in particular a further verify, matching or not, leaves no two rows
with the same username. -/
theorem usernames_stay_unique (s0 : State) (trace : List (Env × Call))
    (h0 : (s0.db.rows.map Account.username).Nodup) :
    ((run s0 trace).db.rows.map Account.username).Nodup ∧
      ∀ (env : Env) (u c : String),
        ((verify env (run s0 trace) u c).state.db.rows.map Account.username).Nodup := by
  induction trace generalizing s0 with
  | nil => exact ⟨h0, fun env u c => step_usernames_nodup env s0 (Call.verify u c) h0⟩
  | cons ec rest ih =>
    obtain ⟨env, call⟩ := ec
    exact ih (step env s0 call).state (step_usernames_nodup env s0 call h0)

/-- C6 at a concrete input: alice holds an account, bob registers and verifies
twice, and a third verify for bob follows. -/
theorem usernames_stay_unique_witness :
    (State.aliceVerified.db.rows.map Account.username).Nodup ∧
      ((run State.aliceVerified
          [(Env.sample, Call.register "bob" "pw"), (Env.sample, Call.verify "bob" "4FZYO82M"),
           (Env.sample, Call.verify "bob" "4FZYO82M")]).db.rows.map Account.username).Nodup ∧
      ((verify Env.sample (run State.aliceVerified
          [(Env.sample, Call.register "bob" "pw"), (Env.sample, Call.verify "bob" "4FZYO82M"),
           (Env.sample, Call.verify "bob" "4FZYO82M")]) "bob" "4FZYO82M").state.db.rows.map
            Account.username).Nodup :=
  have h := usernames_stay_unique State.aliceVerified
    [(Env.sample, Call.register "bob" "pw"), (Env.sample, Call.verify "bob" "4FZYO82M"),
     (Env.sample, Call.verify "bob" "4FZYO82M")] (by decide)
  ⟨by decide, h.1, h.2 Env.sample "bob" "4FZYO82M"⟩

/-! ## C8: updatePassword followed by login -/

theorem filter_key_eq_singleton {κ : Type} [DecidableEq κ] (f : Account → κ) :
    ∀ (l : List Account) (a : Account), a ∈ l → (l.map f).Nodup →
      l.filter (fun r => decide (f r = f a)) = [a]
  | [], a, h, _ => absurd h (List.not_mem_nil a)
  | b :: l, a, h, hn => by
    rw [List.map_cons, List.nodup_cons] at hn
    rcases List.mem_cons.1 h with rfl | hmem
    · have hnone : l.filter (fun r => decide (f r = f a)) = [] := by
        rw [List.filter_eq_nil_iff]
        intro r hr
        simp only [decide_eq_true_eq]
        intro he
        exact hn.1 (he ▸ List.mem_map_of_mem f hr)
      simp [List.filter_cons, hnone]
    · have hne : f b ≠ f a := by
        intro he
        exact hn.1 (he ▸ List.mem_map_of_mem f hmem)
      simp [List.filter_cons, hne, filter_key_eq_singleton f l a hmem hn.2]

theorem byId_eq_singleton (t : Table) (a : Account) (hmem : a ∈ t.rows)
    (hids : (t.rows.map Account.id).Nodup) : t.byId a.id = [a] :=
  filter_key_eq_singleton Account.id t.rows a hmem hids

theorem byUsername_eq_singleton (t : Table) (a : Account) (hmem : a ∈ t.rows)
    (hnames : (t.rows.map Account.username).Nodup) : t.byUsername a.username = [a] :=
  filter_key_eq_singleton Account.username t.rows a hmem hnames

theorem updatePassword_ok (env : Env) (s : State) (a : Account)
    (oldPassword newPassword newHash : String)
    (hbyId : s.db.byId a.id = [a])
    (hold : oldPassword ≠ "") (hnew : newPassword ≠ "")
    (hconn : env.connect = true) (hq1 : env.query1 = true) (hq2 : env.query2 = true)
    (hmatch : env.compare oldPassword a.password_hash = some true)
    (hhash : env.hash newPassword = some newHash) :
    updatePassword env s a.id oldPassword newPassword =
      ⟨{ s with db := s.db.updatePasswordHash a.id newHash },
       messageResponse "Password updated successfully.", none⟩ := by
  cases s
  simp_all [updatePassword, acquire, release]

theorem updatePasswordHash_rows (t : Table) (a : Account) (newHash : String)
    (hmem : a ∈ t.rows) (hids : (t.rows.map Account.id).Nodup) :
    (t.updatePasswordHash a.id newHash).rows =
      t.rows.map (fun r => if r = a then { a with password_hash := newHash } else r) := by
  simp only [Table.updatePasswordHash]
  apply List.map_congr_left
  intro r hr
  by_cases hra : r = a
  · subst hra; simp
  · have hne : r.id ≠ a.id := by
      intro he
      have h1 : r ∈ t.byId a.id := by simp [Table.byId, List.mem_filter, hr, he]
      rw [byId_eq_singleton t a hmem hids, List.mem_singleton] at h1
      exact hra h1
    simp [hra, hne]

/-- C8 fails as stated: oldPassword and newPassword may differ and both log in
after the update. bcrypt reads the first 72 characters of a password only.
Alice holds account 1 with a password of 72 letters a followed by x, which
bcrypt accepts against her stored hash; she changes it to 72 letters a
followed by y. The update succeeds, login with the new password returns a
token, and login with the old password returns a token as well. -/
theorem old_password_still_logs_in :
    longPasswordX ≠ "" ∧ longPasswordY ≠ "" ∧ longPasswordX ≠ longPasswordY ∧
      (State.aliceLongPassword.db.byId 1).map
          (fun r => (r.username, Env.sample.compare longPasswordX r.password_hash)) =
        [("alice", some true)] ∧
      (updatePassword Env.sample State.aliceLongPassword 1 longPasswordX longPasswordY).response =
        messageResponse "Password updated successfully." ∧
      (login Env.sample
          (updatePassword Env.sample State.aliceLongPassword 1 longPasswordX
            longPasswordY).state "alice" longPasswordY).response =
        ⟨200, Body.messageToken "Login successful." "token"⟩ ∧
      (login Env.sample
          (updatePassword Env.sample State.aliceLongPassword 1 longPasswordX
            longPasswordY).state "alice" longPasswordX).response =
        ⟨200, Body.messageToken "Login successful." "token"⟩ := by
  decide

/-- C8, amended: let a be a row of the table, with pairwise distinct ids and
usernames in the table and a non-blank username, let oldPassword and
newPassword be non-blank, let bcrypt.compare accept oldPassword against the
stored hash and bcrypt.hash return newHash for newPassword, and let the pool
answer. Then updatePassword(a.id, oldPassword, newPassword) responds 200
Password updated successfully; the table afterwards is the old one with the
hash of row a replaced by newHash and every other row, as well as the id and
username of a, unchanged; verificationCodes and the pool are untouched.
Afterwards, in any environment where the pool answers and jwt signs,
login(a.username, x) returns a token exactly when x is non-blank and
bcrypt.compare accepts x against newHash. Hence login returns the token for
newPassword when bcrypt accepts it against its own hash; for oldPassword it
responds 401 Invalid credentials when bcrypt rejects it against newHash and
returns the token when bcrypt accepts it, which a difference between the two
passwords does not exclude. -/
theorem updatePassword_then_login (env : Env) (s : State) (a : Account)
    (oldPassword newPassword newHash : String)
    (hmem : a ∈ s.db.rows)
    (hids : (s.db.rows.map Account.id).Nodup)
    (hnames : (s.db.rows.map Account.username).Nodup)
    (hname : a.username ≠ "")
    (hold : oldPassword ≠ "") (hnew : newPassword ≠ "")
    (hconn : env.connect = true) (hq1 : env.query1 = true) (hq2 : env.query2 = true)
    (hmatch : env.compare oldPassword a.password_hash = some true)
    (hhash : env.hash newPassword = some newHash) :
    (updatePassword env s a.id oldPassword newPassword).response =
        messageResponse "Password updated successfully." ∧
      (updatePassword env s a.id oldPassword newPassword).state.db.rows =
        s.db.rows.map (fun r => if r = a then ⟨a.id, a.username, newHash⟩ else r) ∧
      (updatePassword env s a.id oldPassword newPassword).state.verificationCodes =
        s.verificationCodes ∧
      (updatePassword env s a.id oldPassword newPassword).state.outstanding = s.outstanding ∧
      ∀ (env2 : Env) (x token : String), env2.connect = true → env2.query1 = true →
        generateToken env2 a.id = some token →
        (((login env2 (updatePassword env s a.id oldPassword newPassword).state
              a.username x).response.body.token?.isSome = true ↔
            (x ≠ "" ∧ env2.compare x newHash = some true)) ∧
          (env2.compare newPassword newHash = some true →
            (login env2 (updatePassword env s a.id oldPassword newPassword).state
              a.username newPassword).response =
              ⟨200, Body.messageToken "Login successful." token⟩) ∧
          (env2.compare oldPassword newHash = some false →
            (login env2 (updatePassword env s a.id oldPassword newPassword).state
              a.username oldPassword).response =
              errorResponse 401 "Invalid credentials.") ∧
          (env2.compare oldPassword newHash = some true →
            (login env2 (updatePassword env s a.id oldPassword newPassword).state
              a.username oldPassword).response =
              ⟨200, Body.messageToken "Login successful." token⟩)) := by
  have hbyId := byId_eq_singleton s.db a hmem hids
  rw [updatePassword_ok env s a oldPassword newPassword newHash hbyId hold hnew hconn hq1 hq2
    hmatch hhash]
  have hrows := updatePasswordHash_rows s.db a newHash hmem hids
  refine ⟨rfl, hrows, rfl, rfl, ?_⟩
  intro env2 x token hc2 hq hsign
  -- the row of a after the update, and the rows SELECTed by its username
  have hmem2 : (⟨a.id, a.username, newHash⟩ : Account) ∈
      (s.db.updatePasswordHash a.id newHash).rows := by
    rw [hrows]
    exact List.mem_map.2 ⟨a, hmem, by simp⟩
  have hnames2 : ((s.db.updatePasswordHash a.id newHash).rows.map Account.username).Nodup := by
    rw [usernames_updatePasswordHash]; exact hnames
  have hsel := byUsername_eq_singleton (s.db.updatePasswordHash a.id newHash)
    ⟨a.id, a.username, newHash⟩ hmem2 hnames2
  have hlogin : ∀ y : String, y ≠ "" →
      login env2 { s with db := s.db.updatePasswordHash a.id newHash } a.username y =
        match env2.compare y newHash with
        | none => ⟨{ s with db := s.db.updatePasswordHash a.id newHash },
            errorResponse 500 "Internal server error.", none⟩
        | some true => ⟨{ s with db := s.db.updatePasswordHash a.id newHash },
            ⟨200, Body.messageToken "Login successful." token⟩, none⟩
        | some false => ⟨{ s with db := s.db.updatePasswordHash a.id newHash },
            errorResponse 401 "Invalid credentials.", none⟩ := by
    intro y hy
    rw [login_of_account env2 _ a.username y ⟨a.id, a.username, newHash⟩ [] hname hy hc2 hq hsel]
    simp only [hsign]
  refine ⟨?_, ?_, ?_, ?_⟩
  · by_cases hx : x = ""
    · subst hx
      simp [login, errorResponse, Body.token?]
    · rw [hlogin x hx]
      rcases hcmp : env2.compare x newHash with _ | b
      · simp [hx, errorResponse, Body.token?]
      · cases b <;> simp [hx, errorResponse, Body.token?]
  · intro hacc
    rw [hlogin newPassword hnew, hacc]
  · intro hrej
    rw [hlogin oldPassword hold, hrej]
  · intro hacc
    rw [hlogin oldPassword hold, hacc]

/-- C8, amended, at a concrete input: alice changes her password from pw to
pw2; bcrypt accepts pw2 and rejects pw against the new hash, so a login with
pw2 returns the token and a login with pw is refused. -/
theorem updatePassword_then_login_witness :
    (updatePassword Env.sample State.aliceVerified 1 "pw" "pw2").response =
        messageResponse "Password updated successfully." ∧
      (updatePassword Env.sample State.aliceVerified 1 "pw" "pw2").state.db.rows =
        [⟨1, "alice", "h:pw2"⟩] ∧
      (login Env.sample (updatePassword Env.sample State.aliceVerified 1 "pw" "pw2").state
          "alice" "pw2").response = ⟨200, Body.messageToken "Login successful." "token"⟩ ∧
      (login Env.sample (updatePassword Env.sample State.aliceVerified 1 "pw" "pw2").state
          "alice" "pw").response = errorResponse 401 "Invalid credentials." :=
  have h := updatePassword_then_login Env.sample State.aliceVerified ⟨1, "alice", "h:pw"⟩
    "pw" "pw2" "h:pw2" (by decide) (by decide) (by decide) (by decide) (by decide) (by decide)
    rfl rfl rfl (by decide) (by decide)
  ⟨h.1, h.2.1.trans (by decide),
   (h.2.2.2.2 Env.sample "pw2" "token" rfl rfl rfl).2.1 (by decide),
   (h.2.2.2.2 Env.sample "pw" "token" rfl rfl rfl).2.2.1 (by decide)⟩

/-! ## Successful register and verify -/

theorem register_of_ok (env : Env) (s : State) (u p : String)
    (h : (register env s u p).response.status = 200) :
    u ≠ "" ∧ p ≠ "" ∧ s.db.byUsername u = [] ∧
      ∃ hashed, env.hash p = some hashed ∧
        register env s u p =
          ⟨{ s with verificationCodes :=
                s.verificationCodes.set u ⟨hashed, generateVerificationCode env.random36⟩ },
           messageResponse "Registration initiated. Please check your email for the verification code.",
           some (u, generateVerificationCode env.random36)⟩ := by
  unfold register at h ⊢
  repeat' (first | split at h | (dsimp only at h))
  all_goals first
    | (exfalso; revert h; simp [errorResponse]; done)
    | skip
  rename_i hblank _ _ hashed hh _ hrows
  simp only [release_acquire] at hrows
  have hnil : s.db.byUsername u = [] := by
    cases hl : s.db.byUsername u with
    | nil => rfl
    | cons a l => simp [hl] at hrows
  refine ⟨fun e => hblank (Or.inl e), fun e => hblank (Or.inr e), hnil, hashed, hh, ?_⟩
  simp_all [release_acquire]

theorem get_set_same (o : JsObject) (k : String) (e : Pending) : (o.set k e).get k = some e := by
  by_cases hk : k = protoKey
  · simp [JsObject.set, JsObject.get, hk]
  · simp [JsObject.set, JsObject.get, hk, List.lookup]

theorem verify_ok (env : Env) (s : State) (u c : String) (stored : Pending)
    (hu : u ≠ "") (hc : c ≠ "") (hconn : env.connect = true) (hq : env.query1 = true)
    (hget : s.verificationCodes.get u = some stored) (hcode : stored.code = c)
    (hfree : s.db.byUsername u = []) :
    verify env s u c =
      ⟨{ db := ⟨s.db.rows ++ [⟨s.db.nextId, u, stored.hashedPassword⟩], s.db.nextId + 1⟩,
         verificationCodes := s.verificationCodes.delete u,
         outstanding := s.outstanding },
       messageResponse "Account verified successfully. You can now log in.", none⟩ := by
  cases s
  simp_all [verify, Table.insert, acquire, release]

theorem verify_code_of_ok (env : Env) (s : State) (u c : String)
    (h : (verify env s u c).response.status = 200) :
    ∃ stored, s.verificationCodes.get u = some stored ∧ stored.code = c := by
  unfold verify at h
  repeat' (first | split at h | (dsimp only at h))
  all_goals first
    | (exfalso; revert h; simp [errorResponse]; done)
    | skip
  rename_i stored hs hcode _ _ _ _ _
  exact ⟨stored, hs, hcode⟩

/-! ## C3: registering again before verifying -/

/-- C3 fails as stated at two inputs. First, when both registrations draw the
same random value, the first-issued code equals the second and still verifies.
Second, when the second registration draws 0, whose radix-36 rendering is the
string 0, the issued code is blank and verify refuses it although it equals
the stored code. -/
theorem reregister_counterexample :
    ((register Env.sample State.initial "bob" "pw1").mail = some ("bob", "4FZYO82M") ∧
      (register Env.sample (register Env.sample State.initial "bob" "pw1").state
          "bob" "pw2").mail = some ("bob", "4FZYO82M") ∧
      (verify Env.sample
          (register Env.sample (register Env.sample State.initial "bob" "pw1").state
            "bob" "pw2").state "bob" "4FZYO82M").response.status = 200) ∧
    ((register Env.sample State.initial "bob" "pw1").mail = some ("bob", "4FZYO82M") ∧
      (register (Env.working "0") (register Env.sample State.initial "bob" "pw1").state
          "bob" "pw2").mail = some ("bob", "") ∧
      (verify Env.sample
          (register (Env.working "0") (register Env.sample State.initial "bob" "pw1").state
            "bob" "pw2").state "bob" "").response =
        errorResponse 400 "Username and verification code are required.") := by
  decide

/-- C3, amended: let register(u, p1) succeed and issue c1, and let
register(u, p2) follow at once, succeed and issue c2. Then u had no account,
both codes were mailed, and verificationCodes holds for u exactly the hash
bcrypt returned for p2 together with c2. If moreover c2 is non-blank and the
pool answers during verify, then verify(u, c) responds 200 exactly when c
equals c2; the first-issued code c1 is refused with status 400 and no change
of state unless it equals c2; and verify(u, c2) appends to the table one row
for u carrying the hash of the second registration. -/
theorem reregister_replaces_pending (env1 env2 env3 : Env) (s : State) (u p1 p2 : String)
    (h1 : (register env1 s u p1).response.status = 200)
    (h2 : (register env2 (register env1 s u p1).state u p2).response.status = 200)
    (hc2 : generateVerificationCode env2.random36 ≠ "")
    (hconn : env3.connect = true) (hq : env3.query1 = true) :
    s.db.byUsername u = [] ∧
      (register env1 s u p1).mail = some (u, generateVerificationCode env1.random36) ∧
      (register env2 (register env1 s u p1).state u p2).mail =
        some (u, generateVerificationCode env2.random36) ∧
      ∃ hashed2, env2.hash p2 = some hashed2 ∧
        (register env2 (register env1 s u p1).state u p2).state.verificationCodes.get u =
          some ⟨hashed2, generateVerificationCode env2.random36⟩ ∧
        (∀ c, (verify env3 (register env2 (register env1 s u p1).state u p2).state
            u c).response.status = 200 ↔ c = generateVerificationCode env2.random36) ∧
        (generateVerificationCode env1.random36 ≠ generateVerificationCode env2.random36 →
          (verify env3 (register env2 (register env1 s u p1).state u p2).state u
              (generateVerificationCode env1.random36)).response.status = 400 ∧
            (verify env3 (register env2 (register env1 s u p1).state u p2).state u
              (generateVerificationCode env1.random36)).state =
              (register env2 (register env1 s u p1).state u p2).state) ∧
        (verify env3 (register env2 (register env1 s u p1).state u p2).state u
            (generateVerificationCode env2.random36)).state.db.rows =
          s.db.rows ++ [⟨s.db.nextId, u, hashed2⟩] := by
  obtain ⟨hu, _, hfree, hashed1, _, e1⟩ := register_of_ok env1 s u p1 h1
  obtain ⟨_, _, hfree2, hashed2, hh2, e2⟩ :=
    register_of_ok env2 (register env1 s u p1).state u p2 h2
  have hdb2 : (register env2 (register env1 s u p1).state u p2).state.db = s.db := by
    rw [register_db, register_db]
  have hget : (register env2 (register env1 s u p1).state u p2).state.verificationCodes.get u =
      some ⟨hashed2, generateVerificationCode env2.random36⟩ := by
    rw [e2]; exact get_set_same _ _ _
  have hfree3 : (register env2 (register env1 s u p1).state u p2).state.db.byUsername u = [] := by
    rw [hdb2]; exact hfree
  have hok := verify_ok env3 (register env2 (register env1 s u p1).state u p2).state u
    (generateVerificationCode env2.random36) _ hu hc2 hconn hq hget rfl hfree3
  refine ⟨hfree, ?_, ?_, hashed2, hh2, hget, ?_, ?_, ?_⟩
  · rw [e1]
  · rw [e2]
  · intro c
    constructor
    · intro h200
      obtain ⟨stored, hs, hcode⟩ := verify_code_of_ok env3 _ u c h200
      rw [hget] at hs
      cases hs
      exact hcode.symm
    · intro hc
      subst hc
      rw [hok]
      rfl
  · intro hne
    by_cases hblank : generateVerificationCode env1.random36 = ""
    · rw [hblank]
      simp [verify, errorResponse]
    · rw [verify_invalid_of_wrong_code env3 _ u _ _ hu hblank hget (Ne.symm hne)]
      exact ⟨rfl, rfl⟩
  · rw [hok, hdb2]

/-- C3, amended, at a concrete input: bob registers with pw1 and is issued
4FZYO82M, registers again with pw2 and is issued 9K3QX7A1. -/
theorem reregister_replaces_pending_witness :
    (register (Env.working "0.9k3qx7a1zz") (register Env.sample State.initial "bob" "pw1").state
        "bob" "pw2").state.verificationCodes.get "bob" = some ⟨"h:pw2", "9K3QX7A1"⟩ ∧
      (verify Env.sample (register (Env.working "0.9k3qx7a1zz")
          (register Env.sample State.initial "bob" "pw1").state "bob" "pw2").state
          "bob" "4FZYO82M").response.status = 400 ∧
      (verify Env.sample (register (Env.working "0.9k3qx7a1zz")
          (register Env.sample State.initial "bob" "pw1").state "bob" "pw2").state
          "bob" "9K3QX7A1").state.db.rows = [⟨1, "bob", "h:pw2"⟩] :=
  have h := reregister_replaces_pending Env.sample (Env.working "0.9k3qx7a1zz") Env.sample
    State.initial "bob" "pw1" "pw2" (by decide) (by decide) (by decide) rfl rfl
  match h.2.2.2 with
  | ⟨_, hh, hget, _, hfirst, hrow⟩ =>
    ⟨hget.trans (by
        have e : (Env.working "0.9k3qx7a1zz").hash "pw2" = some "h:pw2" := by decide
        rw [e] at hh
        cases hh
        decide),
     (hfirst (by decide)).1,
     hrow.trans (by
        have e : (Env.working "0.9k3qx7a1zz").hash "pw2" = some "h:pw2" := by decide
        rw [e] at hh
        cases hh
        decide)⟩

/-! ## C2: the entry staged under the key __proto__ is not consumed -/

/-- C2 at the failing input: register(__proto__, pw) succeeds and issues
4FZYO82M; verify(__proto__, 4FZYO82M) responds 200 and creates the account,
but the staged entry is still read back afterwards, because the assignment
installed it as the prototype of verificationCodes and delete removes own
properties only. The second verify(__proto__, 4FZYO82M) therefore passes the
code test again, has its INSERT refused, and responds 500 instead of 400
Invalid username or verification code; the table keeps its one row and the
client acquired for the INSERT stays checked out. -/
theorem proto_username_entry_survives_verify :
    (register Env.sample State.initial "__proto__" "pw").response.status = 200 ∧
      (register Env.sample State.initial "__proto__" "pw").mail =
        some ("__proto__", "4FZYO82M") ∧
      (verify Env.sample (register Env.sample State.initial "__proto__" "pw").state
          "__proto__" "4FZYO82M").response =
        messageResponse "Account verified successfully. You can now log in." ∧
      (verify Env.sample (register Env.sample State.initial "__proto__" "pw").state
          "__proto__" "4FZYO82M").state.db.rows = [⟨1, "__proto__", "h:pw"⟩] ∧
      (verify Env.sample (register Env.sample State.initial "__proto__" "pw").state
          "__proto__" "4FZYO82M").state.verificationCodes.get "__proto__" =
        some ⟨"h:pw", "4FZYO82M"⟩ ∧
      (verify Env.sample
          (verify Env.sample (register Env.sample State.initial "__proto__" "pw").state
            "__proto__" "4FZYO82M").state "__proto__" "4FZYO82M").response =
        errorResponse 500 "Internal server error during verification." ∧
      (verify Env.sample
          (verify Env.sample (register Env.sample State.initial "__proto__" "pw").state
            "__proto__" "4FZYO82M").state "__proto__" "4FZYO82M").state.db.rows =
        [⟨1, "__proto__", "h:pw"⟩] ∧
      (verify Env.sample
          (verify Env.sample (register Env.sample State.initial "__proto__" "pw").state
            "__proto__" "4FZYO82M").state "__proto__" "4FZYO82M").state.outstanding = 1 := by
  decide

/-! ## C7: clients checked out of the pool -/

/-- C7 at failing inputs: when a collaborator rejects after pool.connect()
resolved, the handler answers 500 from its catch block without releasing the
client, so one more client is checked out after the call than before. Shown for
login with a rejected SELECT, for register with a rejected bcrypt.hash, for
verify with a rejected INSERT, and for updatePassword and deleteMe with a
rejected SELECT. -/
theorem client_not_released_on_failure :
    ((login Env.queryFails State.aliceVerified "alice" "pw").response.status = 500 ∧
      (login Env.queryFails State.aliceVerified "alice" "pw").state.outstanding =
        State.aliceVerified.outstanding + 1) ∧
    ((register Env.hashFails State.initial "bob" "pw").response.status = 500 ∧
      (register Env.hashFails State.initial "bob" "pw").state.outstanding =
        State.initial.outstanding + 1) ∧
    ((verify Env.queryFails State.bobPending "bob" "4FZYO82M").response.status = 500 ∧
      (verify Env.queryFails State.bobPending "bob" "4FZYO82M").state.outstanding =
        State.bobPending.outstanding + 1) ∧
    ((updatePassword Env.queryFails State.aliceVerified 1 "pw" "pw2").response.status = 500 ∧
      (updatePassword Env.queryFails State.aliceVerified 1 "pw" "pw2").state.outstanding =
        State.aliceVerified.outstanding + 1) ∧
    ((deleteMe Env.queryFails State.aliceVerified 1 "pw").response.status = 500 ∧
      (deleteMe Env.queryFails State.aliceVerified 1 "pw").state.outstanding =
        State.aliceVerified.outstanding + 1) := by
  decide

/-! ## C9: the code issued for the random value 0 -/

/-- C9 at the failing input: the random value 0 renders in radix 36 as the
one-character string 0, of which substring(2, 10) is the empty string. The
issued code is then blank: register responds 200 and mails it, and verify
refuses it with 400 Username and verification code are required. -/
theorem blank_code_for_random_zero :
    isRandomRendering "0" = true ∧
      generateVerificationCode "0" = "" ∧
      (register (Env.working "0") State.initial "bob" "pw").response.status = 200 ∧
      (register (Env.working "0") State.initial "bob" "pw").mail = some ("bob", "") ∧
      (verify Env.sample (register (Env.working "0") State.initial "bob" "pw").state
          "bob" "").response =
        errorResponse 400 "Username and verification code are required." := by
  decide

/-! ## C10: a username with both an entry and an account -/

/-- C10 at the failing input: starting from an empty verificationCodes object
and an empty table, the calls register(__proto__, pw) and
verify(__proto__, 4FZYO82M), served one at a time with every collaborator
answering, reach a state in which the username __proto__ has both a row in the
table and a readable entry in verificationCodes; a further verify with the same
code then reaches the 500 branch, the INSERT being refused as a duplicate. -/
theorem proto_username_pending_and_account :
    State.initial.verificationCodes = JsObject.empty ∧
      (run State.initial
          [(Env.sample, Call.register "__proto__" "pw"),
           (Env.sample, Call.verify "__proto__" "4FZYO82M")]).db.byUsername "__proto__" =
        [⟨1, "__proto__", "h:pw"⟩] ∧
      (run State.initial
          [(Env.sample, Call.register "__proto__" "pw"),
           (Env.sample, Call.verify "__proto__" "4FZYO82M")]).verificationCodes.get "__proto__" =
        some ⟨"h:pw", "4FZYO82M"⟩ ∧
      (step Env.sample
          (run State.initial
            [(Env.sample, Call.register "__proto__" "pw"),
             (Env.sample, Call.verify "__proto__" "4FZYO82M")])
          (Call.verify "__proto__" "4FZYO82M")).response =
        errorResponse 500 "Internal server error during verification." := by
  decide

/-! ## The code issued for a random value other than 0 -/

theorem toUpper_radix36Digit :
    ∀ c ∈ radix36Digits, (c.toUpper.isDigit || c.toUpper.isUpper) = true := by
  decide

/-- For a random value other than 0, whose rendering is 0. followed by radix-36
digits, the issued code is non-empty, has at most 8 characters, and consists of
digits and upper-case letters. -/
theorem generateVerificationCode_of_fraction (rendered : String)
    (h : isFractionRendering rendered = true) :
    generateVerificationCode rendered ≠ "" ∧
      (generateVerificationCode rendered).length ≤ 8 ∧
      ∀ c ∈ (generateVerificationCode rendered).data, (c.isDigit || c.isUpper) = true := by
  unfold isFractionRendering at h
  split at h
  · rename_i d ds hdata
    have hsub : substring rendered.data 2 10 = (d :: ds).take 8 := by
      rw [hdata]
      simp only [substring, List.length_cons, List.drop_succ_cons]
      have e1 : min (min 2 (ds.length + 1 + 1 + 1)) (min 10 (ds.length + 1 + 1 + 1)) = 2 := by
        omega
      have e2 : max (min 2 (ds.length + 1 + 1 + 1)) (min 10 (ds.length + 1 + 1 + 1)) - 2 =
          min 8 (ds.length + 1) := by omega
      rw [e1, e2]
      simp only [List.drop_succ_cons, List.drop_zero]
      rw [List.take_eq_take]
      simp
    refine ⟨?_, ?_, ?_⟩
    · intro hempty
      have := congrArg String.data hempty
      simp [generateVerificationCode, toUpperCase, hsub] at this
    · simp only [generateVerificationCode, toUpperCase, hsub, String.length]
      simp only [List.length_map, List.length_take]
      omega
    · intro c hc
      simp only [generateVerificationCode, toUpperCase, hsub, List.mem_map] at hc
      obtain ⟨x, hx, rfl⟩ := hc
      have hx2 : x ∈ d :: ds := List.mem_of_mem_take hx
      have hall := List.all_eq_true.1 h x hx2
      exact toUpper_radix36Digit x (by simpa using hall)
  · exact absurd h (by simp)


/-- Over all renderings of a random value, the issued code is blank exactly for
the value 0; it always has at most 8 characters, all digits or upper-case
letters. -/
theorem generateVerificationCode_of_random (rendered : String)
    (h : isRandomRendering rendered = true) :
    (generateVerificationCode rendered = "" ↔ rendered = "0") ∧
      (generateVerificationCode rendered).length ≤ 8 ∧
      ∀ c ∈ (generateVerificationCode rendered).data, (c.isDigit || c.isUpper) = true := by
  simp only [isRandomRendering, Bool.or_eq_true, decide_eq_true_eq] at h
  rcases h with h0 | hf
  · subst h0
    refine ⟨⟨fun _ => rfl, fun _ => by decide⟩, by decide, by decide⟩
  · obtain ⟨hne, hlen, hchars⟩ := generateVerificationCode_of_fraction rendered hf
    refine ⟨⟨fun e => absurd e hne, fun e => ?_⟩, hlen, hchars⟩
    subst e
    exact absurd hf (by decide)

/-! ## Where C2 and C10 do hold: usernames other than __proto__ -/

theorem lookup_filter_ne (l : List (String × Pending)) (k : String) :
    (l.filter (fun kv => decide (kv.1 ≠ k))).lookup k = none := by
  induction l with
  | nil => rfl
  | cons kv l ih =>
    obtain ⟨a, b⟩ := kv
    by_cases h : a = k
    · have hd : decide ((a, b).1 ≠ k) = false := by simp [h]
      rw [List.filter_cons, hd]
      exact ih
    · have hd : decide ((a, b).1 ≠ k) = true := by simp [h]
      have hb : (k == a) = false := by
        simpa using fun e : k = a => h e.symm
      rw [List.filter_cons, hd, if_pos rfl, List.lookup_cons, hb]
      exact ih

theorem lookup_filter_of_ne (l : List (String × Pending)) (k k2 : String) (h : k2 ≠ k) :
    (l.filter (fun kv => decide (kv.1 ≠ k))).lookup k2 = l.lookup k2 := by
  induction l with
  | nil => rfl
  | cons kv l ih =>
    obtain ⟨a, b⟩ := kv
    by_cases ha : a = k
    · have hd : decide ((a, b).1 ≠ k) = false := by simp [ha]
      have hb : (k2 == a) = false := by
        simpa using fun e : k2 = a => h (e.trans ha)
      rw [List.filter_cons, hd, List.lookup_cons, hb]
      exact ih
    · have hd : decide ((a, b).1 ≠ k) = true := by simp [ha]
      rw [List.filter_cons, hd, if_pos rfl, List.lookup_cons, List.lookup_cons, ih]

theorem get_delete_same (o : JsObject) (k : String) (hk : k ≠ protoKey) :
    (o.delete k).get k = none := by
  unfold JsObject.delete JsObject.get
  rw [if_neg hk]
  exact lookup_filter_ne _ _

theorem get_delete_of_ne (o : JsObject) (k k2 : String) (h : k2 ≠ k) :
    (o.delete k).get k2 = o.get k2 := by
  unfold JsObject.delete JsObject.get
  by_cases hp : k2 = protoKey
  · rw [if_pos hp, if_pos hp]
  · rw [if_neg hp, if_neg hp]
    exact lookup_filter_of_ne _ _ _ h

theorem get_set_of_ne (o : JsObject) (k k2 : String) (e : Pending) (h : k2 ≠ k) :
    (o.set k e).get k2 = o.get k2 := by
  unfold JsObject.set JsObject.get
  by_cases hk : k = protoKey
  · have hp : k2 ≠ protoKey := fun e2 => h (e2.trans hk.symm)
    rw [if_pos hk, if_neg hp, if_neg hp]
  · rw [if_neg hk]
    by_cases hp : k2 = protoKey
    · rw [if_pos hp, if_pos hp]
    · have hb : (k2 == k) = false := by simpa using h
      rw [if_neg hp, if_neg hp, List.lookup_cons, hb]
      exact lookup_filter_of_ne _ _ _ h

/-- For a username other than __proto__ and a non-blank issued code the flow
of C2 holds: after register(u, p) succeeds and issues the code, verify with it
responds 200, the table then holds for u exactly the one row with the staged
hash, the entry of u is gone, and a second verify with the same code is
refused with 400 Invalid username or verification code and changes nothing. -/
theorem register_then_verify (env1 env2 env3 : Env) (s : State) (u p : String)
    (hproto : u ≠ protoKey)
    (h1 : (register env1 s u p).response.status = 200)
    (hcode : generateVerificationCode env1.random36 ≠ "")
    (hconn : env2.connect = true) (hq : env2.query1 = true) :
    (verify env2 (register env1 s u p).state u
        (generateVerificationCode env1.random36)).response =
        messageResponse "Account verified successfully. You can now log in." ∧
      ∃ hashed, env1.hash p = some hashed ∧
        (verify env2 (register env1 s u p).state u
          (generateVerificationCode env1.random36)).state.db.byUsername u =
          [⟨s.db.nextId, u, hashed⟩] ∧
        (verify env2 (register env1 s u p).state u
          (generateVerificationCode env1.random36)).state.verificationCodes.get u = none ∧
        verify env3
            (verify env2 (register env1 s u p).state u
              (generateVerificationCode env1.random36)).state u
            (generateVerificationCode env1.random36) =
          ⟨(verify env2 (register env1 s u p).state u
              (generateVerificationCode env1.random36)).state,
           errorResponse 400 "Invalid username or verification code.", none⟩ := by
  obtain ⟨hu, _, hfree, hashed, hh, e1⟩ := register_of_ok env1 s u p h1
  have hget : (register env1 s u p).state.verificationCodes.get u =
      some ⟨hashed, generateVerificationCode env1.random36⟩ := by
    rw [e1]; exact get_set_same _ _ _
  have hfree1 : (register env1 s u p).state.db.byUsername u = [] := by
    rw [register_db]; exact hfree
  have hok := verify_ok env2 (register env1 s u p).state u
    (generateVerificationCode env1.random36) _ hu hcode hconn hq hget rfl hfree1
  rw [hok]
  refine ⟨rfl, hashed, hh, ?_, get_delete_same _ _ hproto, ?_⟩
  · have hf : s.db.rows.filter (fun r => decide (r.username = u)) = [] := hfree
    simp only [Table.byUsername, register_db, List.filter_append, hf, List.nil_append]
    simp [List.filter_cons]
  · exact verify_invalid_of_absent env3 _ u _ hu hcode (get_delete_same _ _ hproto)

theorem register_verificationCodes (env : Env) (s : State) (u p : String) :
    (register env s u p).state.verificationCodes = s.verificationCodes ∨
      (s.db.byUsername u = [] ∧
        ∃ e, (register env s u p).state.verificationCodes = s.verificationCodes.set u e) := by
  by_cases h : (register env s u p).response.status = 200
  · obtain ⟨_, _, hfree, hashed, _, e⟩ := register_of_ok env s u p h
    exact Or.inr ⟨hfree, _, by rw [e]⟩
  · left
    revert h
    unfold register
    repeat' (first | split | (dsimp only))
    all_goals first
      | (intro _; rfl)
      | (intro h; exact absurd rfl h)

theorem verify_state (env : Env) (s : State) (u c : String) :
    ((verify env s u c).state.db = s.db ∧
        (verify env s u c).state.verificationCodes = s.verificationCodes) ∨
      ∃ stored, s.verificationCodes.get u = some stored ∧ stored.code = c ∧
        s.db.byUsername u = [] ∧
        (verify env s u c).state.db =
          ⟨s.db.rows ++ [⟨s.db.nextId, u, stored.hashedPassword⟩], s.db.nextId + 1⟩ ∧
        (verify env s u c).state.verificationCodes = s.verificationCodes.delete u := by
  unfold verify
  repeat' (first | split | (dsimp only))
  all_goals first
    | exact Or.inl ⟨rfl, rfl⟩
    | skip
  rename_i stored hs hcode _ _ _ db hins
  refine Or.inr ⟨stored, hs, hcode, ?_⟩
  simp only [Table.insert, acquire] at hins
  split at hins
  · rename_i hb
    refine ⟨hb, ?_, rfl⟩
    simp only [Option.some.injEq] at hins
    subst hins
    rfl
  · exact absurd hins (by simp)

theorem login_verificationCodes (env : Env) (s : State) (u p : String) :
    (login env s u p).state.verificationCodes = s.verificationCodes := by
  unfold login
  repeat' (first | split | (dsimp only))
  all_goals rfl

theorem getMe_verificationCodes (env : Env) (s : State) (i : Nat) :
    (getMe env s i).state.verificationCodes = s.verificationCodes := by
  unfold getMe
  repeat' (first | split | (dsimp only))
  all_goals rfl

theorem updatePassword_verificationCodes (env : Env) (s : State) (i : Nat) (o n : String) :
    (updatePassword env s i o n).state.verificationCodes = s.verificationCodes := by
  unfold updatePassword
  repeat' (first | split | (dsimp only))
  all_goals rfl

theorem deleteMe_verificationCodes (env : Env) (s : State) (i : Nat) (p : String) :
    (deleteMe env s i p).state.verificationCodes = s.verificationCodes := by
  unfold deleteMe
  repeat' (first | split | (dsimp only))
  all_goals rfl

theorem step_disjoint (env : Env) (s : State) (call : Call)
    (h : ∀ u, u ≠ protoKey → s.verificationCodes.get u ≠ none →
      u ∉ s.db.rows.map Account.username) :
    ∀ u, u ≠ protoKey → (step env s call).state.verificationCodes.get u ≠ none →
      u ∉ (step env s call).state.db.rows.map Account.username := by
  intro u2 hp
  cases call with
  | register u p =>
    simp only [step, register_db]
    rcases register_verificationCodes env s u p with e | ⟨hfree, entry, e⟩
    · rw [e]; exact h u2 hp
    · rw [e]
      intro hget
      by_cases hu : u2 = u
      · subst hu
        exact not_mem_usernames_of_byUsername_nil s.db _ hfree
      · rw [get_set_of_ne _ _ _ _ hu] at hget
        exact h u2 hp hget
  | login u p =>
    simp only [step, login_db, login_verificationCodes]; exact h u2 hp
  | getMe i =>
    simp only [step, getMe_db, getMe_verificationCodes]; exact h u2 hp
  | updatePassword i o n =>
    simp only [step, updatePassword_verificationCodes]
    intro hget
    rcases updatePassword_db env s i o n with e | ⟨hh, e⟩
    · rw [e]; exact h u2 hp hget
    · rw [e, usernames_updatePasswordHash]; exact h u2 hp hget
  | deleteMe i p =>
    simp only [step, deleteMe_verificationCodes]
    intro hget
    rcases deleteMe_db env s i p with e | e
    · rw [e]; exact h u2 hp hget
    · rw [e]
      intro hmem
      exact h u2 hp hget (((List.filter_sublist _).map _).subset hmem)
  | verify u c =>
    simp only [step]
    rcases verify_state env s u c with ⟨e1, e2⟩ | ⟨stored, _, _, _, e1, e2⟩
    · rw [e1, e2]; exact h u2 hp
    · rw [e1, e2]
      intro hget
      by_cases hu : u2 = u
      · subst hu
        exact absurd (get_delete_same _ _ hp) hget
      · rw [get_delete_of_ne _ _ _ hu] at hget
        have := h u2 hp hget
        simp only [List.map_append, List.map_cons, List.map_nil, List.mem_append,
          List.mem_singleton, not_or]
        exact ⟨this, hu⟩

/-- For usernames other than __proto__ the invariant of C10 holds: from an
empty verificationCodes object and any table, no state reached by serving
calls one at a time has both an entry and a row for the same username. -/
theorem pending_and_account_disjoint (s0 : State) (trace : List (Env × Call))
    (h0 : s0.verificationCodes = JsObject.empty) (u : String) (hu : u ≠ protoKey)
    (hget : (run s0 trace).verificationCodes.get u ≠ none) :
    (run s0 trace).db.byUsername u = [] := by
  have key : ∀ (tr : List (Env × Call)) (s : State),
      (∀ v, v ≠ protoKey → s.verificationCodes.get v ≠ none →
        v ∉ s.db.rows.map Account.username) →
      ∀ v, v ≠ protoKey → (run s tr).verificationCodes.get v ≠ none →
        v ∉ (run s tr).db.rows.map Account.username := by
    intro tr
    induction tr with
    | nil => intro s hs; exact hs
    | cons ec rest ih =>
      intro s hs
      obtain ⟨env, call⟩ := ec
      exact ih (step env s call).state (step_disjoint env s call hs)
  have hinit : ∀ v, v ≠ protoKey → s0.verificationCodes.get v ≠ none →
      v ∉ s0.db.rows.map Account.username := by
    intro v hv hg
    rw [h0] at hg
    simp [JsObject.get, JsObject.empty, hv] at hg
  have hnot := key trace s0 hinit u hu hget
  simp only [Table.byUsername, List.filter_eq_nil_iff, decide_eq_true_eq]
  intro r hr hru
  exact hnot (List.mem_map.2 ⟨r, hr, hru⟩)

/-- Consequently, for a username other than __proto__, a verify served in such
a state answers 500 only when pool.connect() or the INSERT is rejected by the
environment: the duplicate-username failure does not occur. -/
theorem verify_500_only_on_rejection (s0 : State) (trace : List (Env × Call))
    (h0 : s0.verificationCodes = JsObject.empty) (env : Env) (u c : String)
    (hu : u ≠ protoKey)
    (h500 : (verify env (run s0 trace) u c).response.status = 500) :
    env.connect = false ∨ env.query1 = false := by
  by_contra hcon
  simp only [not_or, Bool.not_eq_false] at hcon
  obtain ⟨hc1, hq1⟩ := hcon
  by_cases hblank : u = "" ∨ c = ""
  · simp [verify, hblank, errorResponse] at h500
  · have hu2 : u ≠ "" := fun e => hblank (Or.inl e)
    have hc2 : c ≠ "" := fun e => hblank (Or.inr e)
    cases hget : (run s0 trace).verificationCodes.get u with
    | none =>
      rw [verify_invalid_of_absent env _ u c hu2 hc2 hget] at h500
      simp [errorResponse] at h500
    | some stored =>
      by_cases hcode : stored.code = c
      · have hfree := pending_and_account_disjoint s0 trace h0 u hu (by rw [hget]; simp)
        rw [verify_ok env _ u c stored hu2 hc2 hc1 hq1 hget hcode hfree] at h500
        simp [messageResponse] at h500
      · rw [verify_invalid_of_wrong_code env _ u c stored hu2 hc2 hget hcode] at h500
        simp [errorResponse] at h500

/-! ## Where C7 does hold: responses other than 500 -/

/-- Whenever a handler answers with a status other than 500, every client it
checked out has been released: the number of outstanding clients is the same
after the call as before. -/
theorem outstanding_unchanged_unless_500 (env : Env) (s : State) (call : Call)
    (h : (step env s call).response.status ≠ 500) :
    (step env s call).state.outstanding = s.outstanding := by
  revert h
  cases call <;> simp only [step]
  case register u p =>
    unfold register
    repeat' (first | split | (dsimp only))
    all_goals first
      | (intro _; simp [release, acquire]; done)
      | (intro h; exact absurd rfl h)
  case verify u c =>
    unfold verify
    repeat' (first | split | (dsimp only))
    all_goals first
      | (intro _; simp [release, acquire]; done)
      | (intro h; exact absurd rfl h)
  case login u p =>
    unfold login
    repeat' (first | split | (dsimp only))
    all_goals first
      | (intro _; simp [release, acquire]; done)
      | (intro h; exact absurd rfl h)
  case getMe i =>
    unfold getMe
    repeat' (first | split | (dsimp only))
    all_goals first
      | (intro _; simp [release, acquire]; done)
      | (intro h; exact absurd rfl h)
  case updatePassword i o n =>
    unfold updatePassword
    repeat' (first | split | (dsimp only))
    all_goals first
      | (intro _; simp [release, acquire]; done)
      | (intro h; exact absurd rfl h)
  case deleteMe i p =>
    unfold deleteMe
    repeat' (first | split | (dsimp only))
    all_goals first
      | (intro _; simp [release, acquire]; done)
      | (intro h; exact absurd rfl h)

/-! ## The hypotheses of C8 hold in reachable states -/

theorem ids_updatePasswordHash (t : Table) (i : Nat) (h : String) :
    (t.updatePasswordHash i h).rows.map Account.id = t.rows.map Account.id := by
  simp only [Table.updatePasswordHash, List.map_map]
  apply List.map_congr_left
  intro r _
  by_cases hr : r.id = i <;> simp [hr]

theorem step_ids_nodup (env : Env) (s : State) (call : Call)
    (h : (s.db.rows.map Account.id).Nodup ∧ ∀ i ∈ s.db.rows.map Account.id, i < s.db.nextId) :
    ((step env s call).state.db.rows.map Account.id).Nodup ∧
      ∀ i ∈ (step env s call).state.db.rows.map Account.id,
        i < (step env s call).state.db.nextId := by
  cases call with
  | register u p => simpa [step, register_db] using h
  | login u p => simpa [step, login_db] using h
  | getMe i => simpa [step, getMe_db] using h
  | updatePassword i o n =>
    rcases updatePassword_db env s i o n with e | ⟨hh, e⟩
    · simpa [step, e] using h
    · simp only [step, e, ids_updatePasswordHash]
      exact h
  | deleteMe i p =>
    rcases deleteMe_db env s i p with e | e
    · simpa [step, e] using h
    · simp only [step, e, Table.deleteById]
      have hsub := (List.filter_sublist (p := fun r : Account => decide (r.id ≠ i))
        (l := s.db.rows)).map Account.id
      exact ⟨h.1.sublist hsub, fun j hj => h.2 j (hsub.subset hj)⟩
  | verify u c =>
    rcases verify_db env s u c with e | ⟨stored, _, _, _, e⟩
    · simpa [step, e] using h
    · simp only [step, e, List.map_append, List.map_cons, List.map_nil]
      refine ⟨List.Nodup.append h.1 (List.nodup_singleton _) ?_, ?_⟩
      · intro x hx hx2
        rw [List.mem_singleton] at hx2
        subst hx2
        exact absurd (h.2 _ hx) (Nat.lt_irrefl _)
      · intro j hj
        rcases List.mem_append.1 hj with hj | hj
        · exact Nat.lt_succ_of_lt (h.2 j hj)
        · rw [List.mem_singleton] at hj
          subst hj
          exact Nat.lt_succ_self _

/-- The ids stay pairwise distinct along every sequence of calls, provided they
are distinct and below the next generated id at the start. -/
theorem ids_stay_unique (s0 : State) (trace : List (Env × Call))
    (h0 : (s0.db.rows.map Account.id).Nodup ∧
      ∀ i ∈ s0.db.rows.map Account.id, i < s0.db.nextId) :
    ((run s0 trace).db.rows.map Account.id).Nodup := by
  have key : ∀ (tr : List (Env × Call)) (s : State),
      ((s.db.rows.map Account.id).Nodup ∧ ∀ i ∈ s.db.rows.map Account.id, i < s.db.nextId) →
      ((run s tr).db.rows.map Account.id).Nodup := by
    intro tr
    induction tr with
    | nil => intro s hs; exact hs.1
    | cons ec rest ih =>
      intro s hs
      obtain ⟨env, call⟩ := ec
      exact ih (step env s call).state (step_ids_nodup env s call hs)
  exact key trace s0 h0

/-- Every row created by the handlers has a non-blank username, provided the
rows at the start have. -/
theorem usernames_stay_nonblank (s0 : State) (trace : List (Env × Call))
    (h0 : "" ∉ s0.db.rows.map Account.username) :
    "" ∉ (run s0 trace).db.rows.map Account.username := by
  have hstep : ∀ (env : Env) (s : State) (call : Call),
      "" ∉ s.db.rows.map Account.username →
      "" ∉ (step env s call).state.db.rows.map Account.username := by
    intro env s call h
    cases call with
    | register u p => simpa [step, register_db] using h
    | login u p => simpa [step, login_db] using h
    | getMe i => simpa [step, getMe_db] using h
    | updatePassword i o n =>
      rcases updatePassword_db env s i o n with e | ⟨hh, e⟩
      · simpa [step, e] using h
      · simp only [step, e, usernames_updatePasswordHash]
        exact h
    | deleteMe i p =>
      rcases deleteMe_db env s i p with e | e
      · simpa [step, e] using h
      · simp only [step, e, Table.deleteById]
        exact fun hm => h (((List.filter_sublist _).map _).subset hm)
    | verify u c =>
      by_cases hu : u = ""
      · subst hu
        have e : (verify env s "" c).state.db = s.db := by simp [verify]
        simpa [step, e] using h
      · rcases verify_db env s u c with e | ⟨stored, _, _, _, e⟩
        · simpa [step, e] using h
        · simp only [step, e, List.map_append, List.map_cons, List.map_nil, List.mem_append,
            List.mem_singleton, not_or]
          exact ⟨h, fun e2 => hu e2.symm⟩
  induction trace generalizing s0 with
  | nil => exact h0
  | cons ec rest ih =>
    obtain ⟨env, call⟩ := ec
    exact ih (step env s0 call).state (hstep env s0 call h0)

end SecureAuth
